import Mathlib

/-!
Shallow embedding of the SpotifyDashBoard filtering-and-aggregation
pipeline (src/app.py and the unnamed sibling revision), together with
proofs of the specification's testable properties.

Tables are lists of records; pandas boolean-mask filtering is
`List.filter`; `groupby(...).sum()` is summation over the distinct keys
in order of first appearance; numeric values are exact rationals
(integers for counts), so "NaN" outcomes of the source are modelled by
`Option` where they can arise.
-/

namespace SpotifyDash

/-- A row of the streaming table `spotify.csv` (columns as consumed by
the dashboards: the categorical filter columns, the entity/geography
columns and the numeric measures). -/
structure Row where
  region : String
  genre : String
  subscription_type : String
  month : String
  artist_name : String
  country : String
  streams : Int
  active_listeners : Int
  completion_rate : Rat
deriving DecidableEq, Repr

/-- The global sidebar constraint set of `src/app.py` lines 41–48: one
allowed-value collection per filter column (`st.multiselect` returns a
list of the selected values). -/
structure Constraints where
  region : List String
  genre : List String
  subscription_type : List String
  month : List String
deriving DecidableEq, Repr

/-- Whether a row passes all four `isin` masks of `src/app.py`
lines 50–55 (constraints combined with `&`, i.e. logical AND). -/
def passes (c : Constraints) (r : Row) : Bool :=
  c.region.contains r.region &&
  c.genre.contains r.genre &&
  c.subscription_type.contains r.subscription_type &&
  c.month.contains r.month

/-- `filtered_df` of `src/app.py` lines 50–55: boolean-mask selection of
the rows passing every `isin` constraint. -/
def filterTable (df : List Row) (c : Constraints) : List Row :=
  df.filter (passes c)

/-- The dashboard state around the filter step: the memoized source
table (`df = load_data()`) and the derived view (`filtered_df`). -/
structure DashState where
  source : List Row
  view : List Row
deriving Repr

/-- The assignment `filtered_df = df[...]` of `src/app.py`: computes a
new derived view from the source; pandas boolean-mask indexing returns
a new frame and performs no in-place mutation. -/
def applyGlobalFilters (s : DashState) (c : Constraints) : DashState :=
  { source := s.source, view := filterTable s.source c }

/-- `df.groupby(key)[col].sum()`: one entry per distinct key present in
`df` (order of first appearance, pandas `sort=False` order is irrelevant
to the claims), each mapped to the sum of `col` over its rows. -/
def groupSum {κ : Type} [DecidableEq κ]
    (df : List Row) (key : Row → κ) (col : Row → Int) : List (κ × Int) :=
  ((df.map key).dedup).map
    (fun g => (g, ((df.filter (fun r => key r = g)).map col).sum))

/-- Pandas `Series.idxmax` by structural recursion: keep the current
best (key, value); a later entry replaces it only when strictly
greater, so the first occurrence of the maximum wins. -/
def idxmaxGo {κ : Type} (best : κ × Int) : List (κ × Int) → κ
  | [] => best.1
  | p :: rest => if p.2 > best.2 then idxmaxGo p rest else idxmaxGo best rest

/-- `idxmax` on a key/value list, `none` when empty (the empty case is
where the pandas call raises `ValueError`). -/
def idxmax {κ : Type} : List (κ × Int) → Option κ
  | [] => none
  | p :: rest => some (idxmaxGo p rest)

/-- `top_artist` of `src/app.py` lines 60–64:
`groupby("artist_name")["streams"].sum().idxmax()` when the filtered
frame is nonempty, the sentinel `"N/A"` otherwise. -/
def top_artist (filtered_df : List Row) : String :=
  if filtered_df.isEmpty then "N/A"
  else (idxmax (groupSum filtered_df Row.artist_name Row.streams)).getD "N/A"

/-- The naive Top Artist metric of the unnamed revision (line 100):
`df.groupby("artist_name").streams.sum().idxmax()` with no empty guard;
`none` models the unhandled `ValueError` pandas raises on an empty
series. -/
def top_artist_naive (df : List Row) : Option String :=
  idxmax (groupSum df Row.artist_name Row.streams)

/-- `active_users = filtered_df["active_listeners"].sum()`
(`src/app.py` line 59). -/
def active_users (filtered_df : List Row) : Int :=
  (filtered_df.map Row.active_listeners).sum

/-- `premium_share` of `src/app.py` lines 65–68: premium
active-listener sum over the total, times 100, guarded by
`if active_users > 0 else 0`. Exact rational arithmetic. -/
def premium_share (filtered_df : List Row) : Rat :=
  let active := active_users filtered_df
  if active > 0 then
    (((filtered_df.filter (fun r => r.subscription_type = "Premium")).map
        Row.active_listeners).sum : Rat) / (active : Rat) * 100
  else 0

/-- `genre_region` of `src/app.py` lines 102–105:
`filtered_df.groupby(["region", "genre"])["streams"].sum()`. -/
def genre_region (filtered_df : List Row) : List ((String × String) × Int) :=
  groupSum filtered_df (fun r => (r.region, r.genre)) Row.streams

/-- `map_df` of the unnamed revision lines 1158–1162: restrict to the
selected genre, then `groupby(["country", "region"])["streams"].sum()`. -/
def map_df (df : List Row) (map_genre : String) : List ((String × String) × Int) :=
  groupSum (df.filter (fun r => r.genre = map_genre))
    (fun r => (r.country, r.region)) Row.streams

/-- Insertion into a sorted list of rationals (helper for `quantile`). -/
def insertSorted (x : Rat) : List Rat → List Rat
  | [] => [x]
  | y :: ys => if x ≤ y then x :: y :: ys else y :: insertSorted x ys

/-- Ascending sort of a rational column (insertion sort). -/
def sortRat (l : List Rat) : List Rat := l.foldr insertSorted []

/-- Pandas `Series.quantile(q)` with the default linear interpolation:
on the sorted values `s` of length `n`, at position `h = q·(n−1)` return
`s[⌊h⌋] + (h − ⌊h⌋)·(s[⌊h⌋+1] − s[⌊h⌋])` (library collaborator,
modelled exactly for the rational inputs the claims use). -/
def quantile (l : List Rat) (q : Rat) : Rat :=
  let s := sortRat l
  let n := s.length
  let h : Rat := q * ((n : Rat) - 1)
  let i : Nat := (Int.floor h).toNat
  let f : Rat := h - ((Int.floor h : Int) : Rat)
  let lo := s.getD i 0
  let hi := s.getD (i + 1) lo
  lo + f * (hi - lo)

/-- `classify` of the unnamed revision lines 1168–1174: three-way
threshold test against the 75th and 40th percentile values, `>=` at
both boundaries, producing the tooltip market-signal string. -/
def classify (q75 q40 : Rat) (map_genre : String) (x : Rat) : String :=
  if x ≥ q75 then "High " ++ map_genre ++ " adoption market"
  else if x ≥ q40 then "Moderate " ++ map_genre ++ " adoption market"
  else "Low " ++ map_genre ++ " adoption market"

/-- Value of a digit string (most significant first). -/
def digitsVal (ds : List Char) : Nat :=
  ds.foldl (fun n c => 10 * n + (c.toNat - 48)) 0

/-- Split a character list at the first `'.'`: the part before it and,
when a dot is present, the part after it. -/
def splitDot : List Char → List Char × Option (List Char)
  | [] => ([], none)
  | c :: t =>
    if c = '.' then ([], some t)
    else ((splitDot t).1.cons c, (splitDot t).2)

/-- Parse an unsigned decimal literal (`"12"`, `"12.5"`, `".5"`,
`"12."`) into mantissa digits and decimal-place count, so the value is
`mantissa / 10 ^ scale`: at most one dot, digit runs on both sides, not
both empty. -/
def parseUnsignedScaled (cs : List Char) : Option (Nat × Nat) :=
  let ip := (splitDot cs).1
  match (splitDot cs).2 with
  | none =>
    if !ip.isEmpty && ip.all Char.isDigit then some (digitsVal ip, 0) else none
  | some fp =>
    if (!ip.isEmpty || !fp.isEmpty) && ip.all Char.isDigit && fp.all Char.isDigit
    then some (digitsVal (ip ++ fp), fp.length)
    else none

/-- Signed scaled parse: optional leading sign, then an unsigned
decimal literal. -/
def parseScaled (s : String) : Option (Int × Nat) :=
  let cs := s.toList
  if cs.head? = some '-' then
    (parseUnsignedScaled cs.tail).map (fun p => (-(p.1 : Int), p.2))
  else if cs.head? = some '+' then
    (parseUnsignedScaled cs.tail).map (fun p => ((p.1 : Int), p.2))
  else
    (parseUnsignedScaled cs).map (fun p => ((p.1 : Int), p.2))

/-- Direct numeric parsing of one cell: an optionally signed decimal
literal to an exact rational, `none` when unparseable. This models the
library collaborator behind `pd.to_numeric(..., errors="coerce")` on a
single value (parse failures coerce to the missing marker `NaN`,
modelled as `none`; no exception is possible since the function is
total). -/
def parseNumeric (s : String) : Option Rat :=
  (parseScaled s).map (fun p => (p.1 : Rat) / ((10 : Rat) ^ p.2))

/-- The coercion loop of the unnamed revision lines 294–296 (and
511–513) applied to one column:
`campaign_df[col] = pd.to_numeric(campaign_df[col], errors="coerce")` —
every cell parsed, failures becoming the missing marker, the column
keeping its length (no row is dropped by coercion itself). -/
def to_numeric_coerce (col : List String) : List (Option Rat) :=
  col.map parseNumeric

/-- The `.abs() + 10` series operation of the unnamed revision line 518
(`campaign_df["abs_user_gain"] = campaign_df["net_user_gain"].abs() + 10`)
applied to the (post-dropna, hence present) `net_user_gain` column. -/
def abs_user_gain_col (net : List Rat) : List Rat :=
  net.map (fun g => |g| + 10)

/-- A sample streaming row (spec §8 scenario: genre=Pop, region=US,
streams=100). -/
def row1 : Row :=
  { region := "US", genre := "Pop", subscription_type := "Premium",
    month := "Jan", artist_name := "Ava", country := "USA",
    streams := 100, active_listeners := 10, completion_rate := 1 }

/-- A second sample streaming row (spec §8 scenario: genre=Rock,
region=US, streams=50). -/
def row2 : Row :=
  { region := "US", genre := "Rock", subscription_type := "Free",
    month := "Jan", artist_name := "Bo", country := "USA",
    streams := 50, active_listeners := 5, completion_rate := 1 }

/-- A constraint set allowing every value observed in the sample table
(the default `multiselect` state: all options selected). -/
def allowAll : Constraints :=
  { region := ["US"], genre := ["Pop", "Rock"],
    subscription_type := ["Premium", "Free"], month := ["Jan"] }

/-- A constraint set whose region selection is empty (the user
deselected everything), so filtering excludes every row. -/
def allowNone : Constraints :=
  { region := [], genre := ["Pop", "Rock"],
    subscription_type := ["Premium", "Free"], month := ["Jan"] }

/-- C3: the constraint filter returns a sublist of the input's rows;
every returned row has, for each constrained column, a value in that
column's allowed collection (the four `isin` masks combined by AND);
and when every column's allowed collection covers all values observed
in the table, the result is the table unchanged. -/
theorem filterTable_sound (df : List Row) (c : Constraints) :
    (filterTable df c).Sublist df ∧
    (∀ r ∈ filterTable df c,
      r.region ∈ c.region ∧ r.genre ∈ c.genre ∧
      r.subscription_type ∈ c.subscription_type ∧ r.month ∈ c.month) ∧
    ((∀ r ∈ df,
        r.region ∈ c.region ∧ r.genre ∈ c.genre ∧
        r.subscription_type ∈ c.subscription_type ∧ r.month ∈ c.month) →
      filterTable df c = df) := by
  refine ⟨List.filter_sublist df, ?_, ?_⟩
  · intro r hr
    have h := (List.mem_filter.mp hr).2
    simp [passes] at h
    tauto
  · intro h
    apply List.filter_eq_self.mpr
    intro r hr
    have := h r hr
    simp [passes]
    tauto

/-- Witness for C3 at a concrete table and an all-covering constraint
set. -/
theorem filterTable_sound_witness :
    filterTable [row1, row2] allowAll = [row1, row2] :=
  (filterTable_sound [row1, row2] allowAll).2.2 (by decide)

/-- C8: applying the constraint filter twice with the same constraint
set equals applying it once. -/
theorem filterTable_idempotent (df : List Row) (c : Constraints) :
    filterTable (filterTable df c) c = filterTable df c := by
  apply List.filter_eq_self.mpr
  intro r hr
  exact (List.mem_filter.mp hr).2

/-- C9: computing the filtered view leaves the source table unchanged —
the filter step only produces a new derived view from the source. -/
theorem applyGlobalFilters_pure (s : DashState) (c : Constraints) :
    (applyGlobalFilters s c).source = s.source ∧
    (applyGlobalFilters s c).view = filterTable s.source c :=
  ⟨rfl, rfl⟩

/-- C2: the premium-share KPI of `src/app.py` guards the
zero-denominator case — a zero active-listener total yields the
defined fallback 0, and any nonzero result can only come from the
branch whose denominator is positive (so no 0/0 `NaN` or `±∞` can
reach the display layer). -/
theorem premium_share_guarded (df : List Row) :
    (active_users df = 0 → premium_share df = 0) ∧
    (premium_share df ≠ 0 → 0 < active_users df) := by
  constructor
  · intro h
    simp [premium_share, h]
  · intro h
    by_contra hc
    push_neg at hc
    have hng : ¬ active_users df > 0 := by omega
    simp [premium_share, hng] at h

/-- Witness for C2 at the empty filtered table, whose active-listener
total is 0. -/
theorem premium_share_guarded_witness :
    active_users [] = 0 ∧ premium_share [] = 0 :=
  ⟨rfl, (premium_share_guarded []).1 rfl⟩

/-- C10: whenever the global filter of `src/app.py` produces an empty
filtered table, both KPI expressions still evaluate (no exception): the
top-artist KPI takes its `else` branch and yields the sentinel `"N/A"`,
and the premium-share KPI takes the guard's fallback branch and yields
0. -/
theorem kpis_total_on_empty_filter (df : List Row) (c : Constraints)
    (h : filterTable df c = []) :
    top_artist (filterTable df c) = "N/A" ∧
    premium_share (filterTable df c) = 0 := by
  rw [h]
  exact ⟨rfl, by simp [premium_share, active_users]⟩

/-- Witness for C10: a one-row table filtered by an empty region
selection gives an empty filtered table, hence the sentinel KPIs. -/
theorem kpis_total_on_empty_filter_witness :
    top_artist (filterTable [row1] allowNone) = "N/A" ∧
    premium_share (filterTable [row1] allowNone) = 0 :=
  kpis_total_on_empty_filter [row1] allowNone rfl

/-- C1 (divergence record): on an empty filtered table neither source
version signals a `NoDataError` — `src/app.py` lines 60–64 silently
return the sentinel `"N/A"`, and the unnamed revision's unguarded
`idxmax` (line 100) has no result at all (`none` models the unhandled
`ValueError` pandas raises on an empty grouped series). -/
theorem top_entity_empty_divergence :
    top_artist [] = "N/A" ∧ top_artist_naive [] = none :=
  ⟨rfl, rfl⟩

/-- Summing a mapped column over a partition of a list by a Boolean
predicate recovers the sum over the whole list. -/
lemma sum_map_filter_partition {α : Type} (p : α → Bool) (v : α → Int)
    (l : List α) :
    ((l.filter p).map v).sum + ((l.filter (fun a => !p a)).map v).sum
      = (l.map v).sum := by
  induction l with
  | nil => simp
  | cons a l ih =>
    by_cases h : p a <;> simp [List.filter_cons, h] <;> omega

/-- Grouped column sums over a duplicate-free key list covering every
row add up to the whole column sum. -/
lemma sum_groups_eq {α κ : Type} [DecidableEq κ] (key : α → κ) (v : α → Int)
    (ks : List κ) :
    ∀ df : List α, ks.Nodup → (∀ r ∈ df, key r ∈ ks) →
      (ks.map (fun g => ((df.filter (fun r => key r = g)).map v).sum)).sum
        = (df.map v).sum := by
  induction ks with
  | nil =>
    intro df _ hmem
    have : df = [] :=
      List.eq_nil_iff_forall_not_mem.mpr (fun r hr => by simpa using hmem r hr)
    subst this
    simp
  | cons g ks ih =>
    intro df hnd hmem
    have hg : g ∉ ks := (List.nodup_cons.mp hnd).1
    have hnd' : ks.Nodup := (List.nodup_cons.mp hnd).2
    have hstep : ∀ g' ∈ ks,
        df.filter (fun r => decide (key r = g'))
          = (df.filter (fun r => !decide (key r = g))).filter
              (fun r => decide (key r = g')) := by
      intro g' hg'
      rw [List.filter_filter]
      apply List.filter_congr
      intro r _
      by_cases hr : key r = g'
      · have hgg' : ¬ g' = g := fun hh => hg (hh ▸ hg')
        have hne : ¬ key r = g := by rw [hr]; exact hgg'
        simp [hr, hne, hgg']
      · simp [hr]
    have hmem' : ∀ r ∈ df.filter (fun r => !decide (key r = g)), key r ∈ ks := by
      intro r hr
      have h1 := (List.mem_filter.mp hr).1
      have h2 := (List.mem_filter.mp hr).2
      have h3 : key r ≠ g := by simpa using h2
      have h4 := hmem r h1
      simp [h3] at h4
      exact h4
    calc ((g :: ks).map
            (fun g' => ((df.filter (fun r => key r = g')).map v).sum)).sum
        = ((df.filter (fun r => decide (key r = g))).map v).sum
            + (ks.map (fun g' =>
                ((df.filter (fun r => decide (key r = g'))).map v).sum)).sum := by
          simp
      _ = ((df.filter (fun r => decide (key r = g))).map v).sum
            + (ks.map (fun g' =>
                (((df.filter (fun r => !decide (key r = g))).filter
                    (fun r => decide (key r = g'))).map v).sum)).sum := by
          congr 1
          apply congrArg
          exact List.map_congr_left (fun g' hg' => by rw [hstep g' hg'])
      _ = ((df.filter (fun r => decide (key r = g))).map v).sum
            + ((df.filter (fun r => !decide (key r = g))).map v).sum := by
          rw [ih (df.filter (fun r => !decide (key r = g))) hnd' hmem']
      _ = (df.map v).sum :=
          sum_map_filter_partition (fun r => decide (key r = g)) v df

/-- C4: sum-aggregation is total-preserving — every row of the table
contributes to some group of `groupSum` (its key appears among the
result keys), and the sum of the reduced column over all result rows
equals the sum of the value column over the whole table (exact
rational/integer arithmetic, so the floating tolerance is 0). -/
theorem groupSum_total {κ : Type} [DecidableEq κ] (df : List Row)
    (key : Row → κ) (col : Row → Int) :
    (∀ r ∈ df, key r ∈ (groupSum df key col).map Prod.fst) ∧
    ((groupSum df key col).map Prod.snd).sum = (df.map col).sum := by
  constructor
  · intro r hr
    have h := List.mem_dedup.mpr (List.mem_map_of_mem key hr)
    simpa [groupSum, List.map_map, Function.comp] using h
  · have h1 : (groupSum df key col).map Prod.snd
        = ((df.map key).dedup).map
            (fun g => ((df.filter (fun r => key r = g)).map col).sum) := by
      simp [groupSum, List.map_map, Function.comp]
    rw [h1]
    exact sum_groups_eq key col ((df.map key).dedup) df
      (List.nodup_dedup (df.map key))
      (fun r hr => List.mem_dedup.mpr (List.mem_map_of_mem key hr))

/-- Witness for C4 at the spec §8 sample table, grouped by artist over
streams. -/
theorem groupSum_total_witness :
    row1.artist_name
        ∈ (groupSum [row1, row2] Row.artist_name Row.streams).map Prod.fst ∧
    ((groupSum [row1, row2] Row.artist_name Row.streams).map Prod.snd).sum
        = ([row1, row2].map Row.streams).sum :=
  ⟨(groupSum_total [row1, row2] Row.artist_name Row.streams).1 row1 (by simp),
    (groupSum_total [row1, row2] Row.artist_name Row.streams).2⟩

/-- C5: the market-signal classification assigns the High label when
`x ≥ q75`, the Moderate label when `q40 ≤ x < q75` and the Low label
when `x < q40` (boundaries belong to the higher bucket, `>=` in both
tests); and on the aggregated values `[10, 20, 30, 40]` the pandas
quantiles are `q75 = 32.5` and `q40 = 22`, so 32.5 classifies High and
22 classifies Moderate. -/
theorem classify_thresholds (q75 q40 x : Rat) (g : String)
    (hq : q40 ≤ q75) :
    (q75 ≤ x → classify q75 q40 g x = "High " ++ g ++ " adoption market") ∧
    (q40 ≤ x ∧ x < q75 →
      classify q75 q40 g x = "Moderate " ++ g ++ " adoption market") ∧
    (x < q40 → classify q75 q40 g x = "Low " ++ g ++ " adoption market") ∧
    quantile [10, 20, 30, 40] (3/4) = 65/2 ∧
    quantile [10, 20, 30, 40] (2/5) = 22 := by
  have hsort : sortRat [10, 20, 30, 40] = [10, 20, 30, 40] := by
    norm_num [sortRat, insertSorted]
  refine ⟨?_, ?_, ?_, ?_, ?_⟩
  · intro h
    simp [classify, h]
  · rintro ⟨h1, h2⟩
    have hn : ¬ x ≥ q75 := not_le.mpr h2
    simp [classify, hn, h1]
  · intro h
    have hn75 : ¬ x ≥ q75 := not_le.mpr (lt_of_lt_of_le h hq)
    have hn40 : ¬ x ≥ q40 := not_le.mpr h
    simp [classify, hn75, hn40]
  · have hfl : ⌊(3/4 : Rat) * ((4 : Rat) - 1)⌋ = 2 := by
      rw [Int.floor_eq_iff]; norm_num
    simp only [quantile, hsort]
    norm_num [hfl]
    norm_num [show Int.toNat 2 = 2 from rfl]
  · have hfl : ⌊(2/5 : Rat) * ((4 : Rat) - 1)⌋ = 1 := by
      rw [Int.floor_eq_iff]; norm_num
    simp only [quantile, hsort]
    norm_num [hfl]

/-- Witness for C5 at the spec's concrete thresholds `q75 = 32.5`,
`q40 = 22`: 32.5 gets the High label, 22 the Moderate label. -/
theorem classify_thresholds_witness :
    classify (65/2) 22 "Pop" (65/2) = "High Pop adoption market" ∧
    classify (65/2) 22 "Pop" 22 = "Moderate Pop adoption market" :=
  ⟨by
      have h := (classify_thresholds (65/2) 22 (65/2) "Pop" (by norm_num)).1
        (le_refl _)
      simpa using h,
    by
      have h := (classify_thresholds (65/2) 22 22 "Pop" (by norm_num)).2.1
        ⟨le_refl _, by norm_num⟩
      simpa using h⟩

/-- C6: the `pd.to_numeric(errors="coerce")` column pass converts each
parseable cell to its directly parsed rational, each unparseable cell
to the missing marker, never fails (the function is total), and keeps
the column length (no row dropped); the missing-marker count equals the
count of unparseable cells, as in the one-invalid-among-N instance
`["100", "abc", "42.5", "-7"]`. -/
theorem to_numeric_coerce_spec (col : List String) :
    (to_numeric_coerce col).length = col.length ∧
    (∀ i : Nat, (to_numeric_coerce col).getD i none
        = parseNumeric (col.getD i "")) ∧
    (to_numeric_coerce col).countP (fun o => o.isNone)
      = col.countP (fun s => (parseNumeric s).isNone) ∧
    (to_numeric_coerce col).countP (fun o => o.isSome)
      = col.countP (fun s => (parseNumeric s).isSome) ∧
    to_numeric_coerce ["100", "abc", "42.5", "-7"]
      = [some 100, none, some (85/2), some (-7)] ∧
    (to_numeric_coerce ["100", "abc", "42.5", "-7"]).countP
        (fun o => o.isNone) = 1 ∧
    (to_numeric_coerce ["100", "abc", "42.5", "-7"]).countP
        (fun o => o.isSome) = 3 := by
  have hempty : parseNumeric "" = none := rfl
  have h1 : parseScaled "100" = some (100, 0) := by decide
  have h2 : parseScaled "abc" = none := by decide
  have h3 : parseScaled "42.5" = some (425, 1) := by decide
  have h4 : parseScaled "-7" = some (-7, 0) := by decide
  have hconc : to_numeric_coerce ["100", "abc", "42.5", "-7"]
      = [some 100, none, some (85/2), some (-7)] := by
    simp [to_numeric_coerce, parseNumeric, h1, h2, h3, h4]
    norm_num
  refine ⟨List.length_map col parseNumeric, ?_, ?_, ?_, hconc, ?_, ?_⟩
  · intro i
    rw [to_numeric_coerce, List.getD_eq_getElem?_getD, List.getElem?_map,
      List.getD_eq_getElem?_getD]
    cases h : col[i]? with
    | none => simp [hempty]
    | some s => simp
  · rw [to_numeric_coerce, List.countP_map]
    rfl
  · rw [to_numeric_coerce, List.countP_map]
    rfl
  · rw [hconc]
    rfl
  · rw [hconc]
    rfl

/-- C7: the derived magnitude-size column is `|net_user_gain| + 10`
cell-by-cell, hence every derived size is strictly positive even for
negative gains; `[-5, 20]` maps to `[15, 30]`. -/
theorem abs_user_gain_spec (net : List Rat) :
    (∀ i : Nat, (abs_user_gain_col net).getD i 10 = |net.getD i 0| + 10) ∧
    (∀ x ∈ abs_user_gain_col net, 0 < x) ∧
    abs_user_gain_col [-5, 20] = [15, 30] := by
  have n1 : |(-5 : Rat)| = 5 := by
    rw [abs_of_nonpos (by norm_num : (-5 : Rat) ≤ 0)]; norm_num
  have n2 : |(20 : Rat)| = 20 := abs_of_nonneg (by norm_num)
  refine ⟨?_, ?_, ?_⟩
  · intro i
    rw [abs_user_gain_col, List.getD_eq_getElem?_getD, List.getElem?_map,
      List.getD_eq_getElem?_getD]
    cases h : net[i]? with
    | none => simp
    | some gq => simp
  · intro x hx
    rcases List.mem_map.mp hx with ⟨gq, _, rfl⟩
    have := abs_nonneg gq
    linarith
  · simp [abs_user_gain_col, n1, n2]
    norm_num

/-- Witness for C7: 15 is a derived size of the `[-5, 20]` column and
is strictly positive. -/
theorem abs_user_gain_spec_witness :
    (0 : Rat) < 15 ∧ abs_user_gain_col [-5, 20] = [15, 30] := by
  refine ⟨(abs_user_gain_spec [-5, 20]).2.1 15 ?_,
    (abs_user_gain_spec [-5, 20]).2.2⟩
  rw [(abs_user_gain_spec [-5, 20]).2.2]
  simp

end SpotifyDash
